import Mathlib

/-!
Shallow embedding of `src/packages/dom/src/autoUpdate.ts` (the `autoUpdate`
function of floating-ui's DOM package) and proofs of the spec's claims about
it.

Modelling choices, all traced from the source file:

* DOM elements are opaque identifiers (`Elem := Nat`).  The external
  collaborators `getOverflowAncestors` (an accessor `Elem → List Elem`) and
  the current rectangle of a virtual reference are parameters: the accessor
  lives in `Config`, and rectangles sampled asynchronously are carried by the
  events that deliver them.
* `addEventListener`/`removeEventListener` with a fixed callback (`update`)
  and a fixed event type per call site are modelled as insertion/erasure in a
  `Finset (Elem × ListenerKind)`: the DOM deduplicates an identical
  (target, type, callback) registration, and here the callback is always the
  same `update` closure.
* The `ResizeObserver` (lines 72-87) is an optional slot holding the list of
  observed nodes and the shared `initialUpdate` flag of its callback closure.
* The one-shot `IntersectionObserver` of `frameLoop` (lines 97-123) is an
  optional unit slot; its callback's data (`entries`) is carried by the
  delivering event.
* `requestAnimationFrame` returns ids 1, 2, 3, … (browsers return positive
  ids, so the truthiness test `if (frameId)` on line 156 coincides with
  non-null); `pendingFrame` holds the id of the not-yet-fired,
  not-yet-cancelled request, if any.
* `update()` invocations and rectangle samples are recorded in a trace of
  `Action`s so that both counts and relative order can be stated.
* The returned disposer (lines 144-159) is embedded in an `Except` monad in
  which calling a method on a null handle is an error, so that the source's
  `?.` guards are visible and "never throws" is a real statement.
-/

namespace AutoUpdate

/-- Opaque DOM element identifier. -/
abbrev Elem := Nat

/-- A `DOMRect`-style rectangle; only the four fields the code compares. -/
structure Rect where
  x : Int
  y : Int
  width : Int
  height : Int
deriving DecidableEq, Repr

/-- The `ReferenceElement` argument: either a concrete element, or a virtual element with
an optional `contextElement` (source: `isElement(reference)` discrimination
on lines 57-61, 82-85, 98). -/
inductive ReferenceElement
  | el (e : Elem)
  | virtual (contextElement : Option Elem)
deriving DecidableEq, Repr

/-- The `isElement` predicate from `./utils/is` as used by `autoUpdate`. -/
def isElement : ReferenceElement → Bool
  | .el _ => true
  | .virtual _ => false

/-- Resolved `Options` (source lines 6-33): all four flags concrete. -/
structure Options where
  ancestorScroll : Bool
  ancestorResize : Bool
  elementResize : Bool
  animationFrame : Bool
deriving DecidableEq, Repr

/-- The `Partial<Options>` argument: each flag may be absent. -/
structure OptionsArg where
  ancestorScroll : Option Bool
  ancestorResize : Option Bool
  elementResize : Option Bool
  animationFrame : Option Bool
deriving DecidableEq, Repr

/-- Destructuring with defaults, source lines 45-50: `ancestorScroll`,
`ancestorResize`, `elementResize` default `true`; `animationFrame` defaults
`false`. -/
def resolve (o : OptionsArg) : Options where
  ancestorScroll := o.ancestorScroll.getD true
  ancestorResize := o.ancestorResize.getD true
  elementResize := o.elementResize.getD true
  animationFrame := o.animationFrame.getD false

/-- One call of `autoUpdate`: its arguments plus the external
ancestor-discovery accessor `getOverflowAncestors`. -/
structure Config where
  reference : ReferenceElement
  floating : Elem
  options : OptionsArg
  getOverflowAncestors : Elem → List Elem

/-- The resolved options of a call. -/
def Config.opts (cfg : Config) : Options := resolve cfg.options

/-- Source line 52: `const ancestorScroll = _ancestorScroll && !animationFrame`. -/
def Config.ancestorScroll (cfg : Config) : Bool :=
  cfg.opts.ancestorScroll && !cfg.opts.animationFrame

/-- Source lines 54-64: the `ancestors` array. -/
def Config.ancestors (cfg : Config) : List Elem :=
  if cfg.ancestorScroll || cfg.opts.ancestorResize then
    (match cfg.reference with
      | .el e => cfg.getOverflowAncestors e
      | .virtual (some c) => cfg.getOverflowAncestors c
      | .virtual none => []) ++ cfg.getOverflowAncestors cfg.floating
  else []

/-- The two listener types registered on ancestors (lines 67-69). -/
inductive ListenerKind
  | scroll
  | resize
deriving DecidableEq, Repr

/-- The set of (target, event-type) registrations of the `update` callback. -/
abbrev Listeners := Finset (Elem × ListenerKind)

/-- Body of the `ancestors.forEach` registration loop, lines 66-70: one
ancestor's `addEventListener` calls, guarded by the two flags. -/
def addPair (sc rz : Bool) (acc : Listeners) (a : Elem) : Listeners :=
  let acc1 := if sc then insert (a, ListenerKind.scroll) acc else acc
  if rz then insert (a, ListenerKind.resize) acc1 else acc1

/-- The whole registration loop, lines 66-70. -/
def addListeners (sc rz : Bool) (l : List Elem) (init : Listeners) : Listeners :=
  l.foldl (addPair sc rz) init

/-- Body of the `ancestors.forEach` removal loop in the disposer, lines
145-148: one ancestor's `removeEventListener` calls. -/
def removePair (sc rz : Bool) (acc : Listeners) (a : Elem) : Listeners :=
  let acc1 := if sc then acc.erase (a, ListenerKind.scroll) else acc
  if rz then acc1.erase (a, ListenerKind.resize) else acc1

/-- The whole removal loop, lines 145-148. -/
def removeListeners (sc rz : Bool) (l : List Elem) (init : Listeners) : Listeners :=
  l.foldl (removePair sc rz) init

/-- The `ResizeObserver` created on lines 74-81: its observed nodes and the
captured `initialUpdate` flag (one flag shared by the whole callback, not
per node). -/
structure RoState where
  observed : List Elem
  initialUpdate : Bool
deriving DecidableEq, Repr

/-- Lines 72-87: `resizeObserver` construction and the `observe` calls.
Observation order follows the source: reference (line 82, only when it is an
element and `animationFrame` is off), then `contextElement` (lines 83-85),
then `floating` (line 86, always). -/
def initResizeObserver (cfg : Config) : Option RoState :=
  if cfg.opts.elementResize then
    let obs1 : List Elem :=
      match cfg.reference with
      | .el e => if !cfg.opts.animationFrame then [e] else []
      | .virtual _ => []
    let obs2 : List Elem :=
      match cfg.reference with
      | .el _ => []
      | .virtual (some c) => if !cfg.opts.animationFrame then [c] else []
      | .virtual none => []
    some ⟨obs1 ++ obs2 ++ [cfg.floating], true⟩
  else none

/-- The mutable state owned by one `autoUpdate` call (lines 66-91). -/
structure State where
  listeners : Listeners
  resizeObserver : Option RoState
  intersectionObserver : Option Unit
  prevRefRect : Option Rect
  frameId : Option Nat
  pendingFrame : Option Nat
  nextFrameId : Nat
deriving DecidableEq

/-- Observable actions: an `update()` invocation, or the poller sampling the
reference rectangle (line 104 via the intersection entry, or line 125 via
`getBoundingClientRect`). -/
inductive Action
  | update
  | sample (rect : Rect)
deriving DecidableEq, Repr

/-- Number of `update()` invocations in a trace. -/
def updates (tr : List Action) : Nat :=
  tr.count Action.update

/-- Calling `requestAnimationFrame(frameLoop)`: allocates the next positive id and
makes that request pending; returns the id (assigned to `frameId` at both
call sites, lines 117 and 138). -/
def requestAnimationFrame (s : State) : Nat × State :=
  (s.nextFrameId,
    { s with pendingFrame := some s.nextFrameId, nextFrameId := s.nextFrameId + 1 })

/-- Calling `cancelAnimationFrame(id)`: drops the pending request if `id` is it. -/
def cancelAnimationFrame (id : Nat) (s : State) : State :=
  if s.pendingFrame = some id then { s with pendingFrame := none } else s

/-- The change test of lines 106-112 and 127-133:
`prevRefRect && (nextRefRect.x !== prevRefRect.x || ...)`. -/
def rectChanged (prev : Option Rect) (next : Rect) : Bool :=
  match prev with
  | none => false
  | some p =>
      next.x != p.x || next.y != p.y || next.width != p.width || next.height != p.height

/-- The function `frameLoop` (lines 97-140), as far as it runs
synchronously.  For a concrete element reference it only constructs the
`IntersectionObserver` and observes the reference (lines 99, 123); the
callback body runs later, when the observation is delivered (see `step`,
`Event.ioFire`).  For a virtual reference it reads the current rectangle
(line 125; the value `virtualRect` is supplied by the caller/event), runs
the change test, stores the snapshot and requests the next frame (lines
127-138). -/
def frameLoop (cfg : Config) (virtualRect : Rect) (s : State) : State × List Action :=
  match cfg.reference with
  | .el _ =>
      ({ s with intersectionObserver := some () }, [])
  | .virtual _ =>
      let nextRefRect := virtualRect
      let tr : List Action :=
        if rectChanged s.prevRefRect nextRefRect then [Action.update] else []
      let s1 := { s with prevRefRect := some nextRefRect }
      let p := requestAnimationFrame s1
      ({ p.2 with frameId := some p.1 }, Action.sample nextRefRect :: tr)

/-- The synchronous part of `autoUpdate(reference, floating, update, options)`
(lines 45-142): register ancestor listeners, create the resize observer,
run `frameLoop()` once when `animationFrame` is set (lines 93-95), then the
unconditional `update()` call of line 142.  `rect0` is the rectangle
`getBoundingClientRect(reference)` would return at setup time (used only on
the virtual-reference poller path). -/
def setup (cfg : Config) (rect0 : Rect) : State × List Action :=
  let s0 : State :=
    { listeners := addListeners cfg.ancestorScroll cfg.opts.ancestorResize cfg.ancestors ∅
      resizeObserver := initResizeObserver cfg
      intersectionObserver := none
      prevRefRect := none
      frameId := none
      pendingFrame := none
      nextFrameId := 1 }
  let p := if cfg.opts.animationFrame then frameLoop cfg rect0 s0 else (s0, [])
  (p.1, p.2 ++ [Action.update])

/-- Asynchronous events the host can deliver to this setup's registrations.
`scrollAt`/`resizeAt` are a scroll/resize event on node `a`; `roFire` is a
`ResizeObserver` callback batch; `ioFire` is the `IntersectionObserver`
callback, carrying `boundingClientRect` of the first entry if the batch is
non-empty; `frame` is the pending animation-frame callback firing, carrying
the rectangle a virtual reference would report at that instant. -/
inductive Event
  | scrollAt (a : Elem)
  | resizeAt (a : Elem)
  | roFire
  | ioFire (entry : Option Rect)
  | frame (virtualRect : Rect)
deriving DecidableEq, Repr

/-- One event delivery.  An event reaches this setup's code only through a
live registration: a listener still in `listeners`, a non-null observer
slot, or the pending frame request; otherwise it is a no-op for this
instance. -/
def step (cfg : Config) (s : State) (e : Event) : State × List Action :=
  match e with
  | .scrollAt a =>
      if (a, ListenerKind.scroll) ∈ s.listeners then (s, [Action.update]) else (s, [])
  | .resizeAt a =>
      if (a, ListenerKind.resize) ∈ s.listeners then (s, [Action.update]) else (s, [])
  | .roFire =>
      match s.resizeObserver with
      | none => (s, [])
      | some ro =>
          -- lines 75-81: `if (!initialUpdate) update(); initialUpdate = false`
          let tr : List Action := if !ro.initialUpdate then [Action.update] else []
          ({ s with resizeObserver := some ⟨ro.observed, false⟩ }, tr)
  | .ioFire entry =>
      match s.intersectionObserver with
      | none => (s, [])
      | some _ =>
          match entry with
          | none => (s, [])  -- line 100-102: `if (!referenceEntry) return`
          | some nextRefRect =>
              let tr : List Action :=
                if rectChanged s.prevRefRect nextRefRect then [Action.update] else []
              let s1 := { s with prevRefRect := some nextRefRect }
              let p := requestAnimationFrame s1
              let s2 := { p.2 with frameId := some p.1 }
              -- lines 119-120: `intersectionObserver?.disconnect(); intersectionObserver = null`
              ({ s2 with intersectionObserver := none }, Action.sample nextRefRect :: tr)
  | .frame r =>
      match s.pendingFrame with
      | none => (s, [])
      | some _ => frameLoop cfg r { s with pendingFrame := none }

/-- Delivering a list of events in order, concatenating the traces. -/
def run (cfg : Config) : State → List Event → State × List Action
  | s, [] => (s, [])
  | s, e :: rest =>
      let p := step cfg s e
      let q := run cfg p.1 rest
      (q.1, p.2 ++ q.2)

/-- A JS method call `handle.disconnect()`: a TypeError if the handle is
null, otherwise the handle is released. -/
def disconnectCall (slot : Option α) : Except String (Option α) :=
  match slot with
  | none => Except.error "TypeError: cannot call disconnect on null"
  | some _ => Except.ok none

/-- The optional-chaining form `handle?.disconnect()` (lines 150, 153): the
call is skipped when the handle is null. -/
def optionalDisconnect (slot : Option α) : Except String (Option α) :=
  match slot with
  | none => Except.ok slot
  | some _ => disconnectCall slot

/-- The disposer returned by `autoUpdate` (lines 144-159): remove the
ancestor listeners under the same flags that registered them, disconnect and
null out both observer handles via `?.`, and cancel the animation frame
request if `frameId` is truthy. -/
def dispose (cfg : Config) (s : State) : Except String State :=
  let ls := removeListeners cfg.ancestorScroll cfg.opts.ancestorResize cfg.ancestors s.listeners
  match optionalDisconnect s.resizeObserver with
  | Except.error msg => Except.error msg
  | Except.ok ro =>
      match optionalDisconnect s.intersectionObserver with
      | Except.error msg => Except.error msg
      | Except.ok io =>
          let s1 := { s with listeners := ls, resizeObserver := ro, intersectionObserver := io }
          -- line 156-158: `if (frameId) { cancelAnimationFrame(frameId) }`; requested
          -- ids are positive, so JS truthiness is `some` of a non-zero id
          match s1.frameId with
          | some id => if id ≠ 0 then Except.ok (cancelAnimationFrame id s1) else Except.ok s1
          | none => Except.ok s1

/-- A state none of whose mechanisms is live: no listeners, no observers, no
pending frame. -/
def Quiescent (s : State) : Prop :=
  s.listeners = ∅ ∧ s.resizeObserver = none ∧ s.intersectionObserver = none ∧
    s.pendingFrame = none

/-- The frame-request bookkeeping invariant the code maintains: whenever a
request is pending, `frameId` holds its id (it is assigned at every request
site), and all allocated ids are positive. -/
def FrameInv (s : State) : Prop :=
  (∀ i, s.pendingFrame = some i → s.frameId = some i) ∧
    (∀ i, s.frameId = some i → 0 < i) ∧ 0 < s.nextFrameId

/-- The observed-node lists of a live resize observer all equal `l`. -/
def ObservedEq (l : List Elem) (s : State) : Prop :=
  ∀ ro, s.resizeObserver = some ro → ro.observed = l

/-! Concrete instances, used only in closed statements about particular
runs. -/

/-- An ancestor accessor returning no ancestors. -/
def oaEmpty : Elem → List Elem := fun _ => []

/-- An ancestor accessor: element 7 has overflow ancestors 1 and 2, every
other element has overflow ancestor 3. -/
def oaSample : Elem → List Elem := fun e => if e = 7 then [1, 2] else [3]

/-- The empty options record: every flag takes its default. -/
def defaultArgs : OptionsArg := ⟨none, none, none, none⟩

/-- Options enabling frame polling only. -/
def afArgs : OptionsArg := ⟨none, none, none, some true⟩

/-- Concrete element reference 7, floating 0, default options. -/
def cfgElem : Config := ⟨ReferenceElement.el 7, 0, defaultArgs, oaSample⟩

/-- Concrete element reference 7, floating 0, frame polling on. -/
def cfgElemAf : Config := ⟨ReferenceElement.el 7, 0, afArgs, oaSample⟩

/-- Virtual reference without `contextElement`, frame polling on. -/
def cfgVirtAf : Config := ⟨ReferenceElement.virtual none, 0, afArgs, oaEmpty⟩

/-- Frame polling on and `ancestorResize` off: both effective ancestor
flags are off while the accessor `oaSample` is non-trivial. -/
def cfgFlagsOff : Config :=
  ⟨ReferenceElement.el 7, 0, ⟨none, some false, none, some true⟩, oaSample⟩

/-- A sample rectangle. -/
def rectA : Rect := ⟨0, 0, 10, 10⟩

/-- The rectangle `rectA` moved 5 pixels right. -/
def rectB : Rect := ⟨5, 0, 10, 10⟩

/-- A state whose one-shot intersection trigger is armed and whose previous
snapshot is `rectA`. -/
def sPoll : State := ⟨∅, none, some (), some rectA, none, none, 1⟩

/-- The state left behind by disposing `cfgElem` right after setup. -/
def sDisposed : State := ⟨∅, none, none, none, none, none, 1⟩

/-! Membership of the listener registration and removal loops. -/

theorem mem_addPair {sc rz : Bool} {acc : Listeners} {a : Elem}
    {x : Elem × ListenerKind} :
    x ∈ addPair sc rz acc a ↔
      x ∈ acc ∨ (sc = true ∧ x = (a, ListenerKind.scroll)) ∨
        (rz = true ∧ x = (a, ListenerKind.resize)) := by
  cases sc <;> cases rz <;> simp [addPair] <;> tauto

theorem mem_addListeners {sc rz : Bool} {l : List Elem} {init : Listeners}
    {x : Elem × ListenerKind} :
    x ∈ addListeners sc rz l init ↔
      x ∈ init ∨ ∃ a ∈ l, (sc = true ∧ x = (a, ListenerKind.scroll)) ∨
        (rz = true ∧ x = (a, ListenerKind.resize)) := by
  induction l generalizing init with
  | nil => simp [addListeners]
  | cons b t ih =>
      simp only [addListeners, List.foldl_cons] at ih ⊢
      rw [ih, mem_addPair]
      simp only [List.mem_cons]
      constructor
      · rintro ((h | h | h) | ⟨a, ha, h⟩)
        · exact Or.inl h
        · exact Or.inr ⟨b, Or.inl rfl, Or.inl h⟩
        · exact Or.inr ⟨b, Or.inl rfl, Or.inr h⟩
        · exact Or.inr ⟨a, Or.inr ha, h⟩
      · rintro (h | ⟨a, (rfl | ha), h⟩)
        · exact Or.inl (Or.inl h)
        · exact Or.inl (Or.inr h)
        · exact Or.inr ⟨a, ha, h⟩

theorem mem_removePair {sc rz : Bool} {acc : Listeners} {a : Elem}
    {x : Elem × ListenerKind} :
    x ∈ removePair sc rz acc a ↔
      x ∈ acc ∧ ¬(sc = true ∧ x = (a, ListenerKind.scroll)) ∧
        ¬(rz = true ∧ x = (a, ListenerKind.resize)) := by
  cases sc <;> cases rz <;> simp [removePair, Finset.mem_erase] <;> tauto

theorem mem_removeListeners {sc rz : Bool} {l : List Elem} {init : Listeners}
    {x : Elem × ListenerKind} :
    x ∈ removeListeners sc rz l init ↔
      x ∈ init ∧ ∀ a ∈ l, ¬(sc = true ∧ x = (a, ListenerKind.scroll)) ∧
        ¬(rz = true ∧ x = (a, ListenerKind.resize)) := by
  induction l generalizing init with
  | nil => simp [removeListeners]
  | cons b t ih =>
      simp only [removeListeners, List.foldl_cons] at ih ⊢
      rw [ih, mem_removePair]
      simp only [List.mem_cons]
      constructor
      · rintro ⟨⟨hx, hs, hr⟩, hall⟩
        refine ⟨hx, ?_⟩
        rintro a (rfl | ha)
        · exact ⟨hs, hr⟩
        · exact hall a ha
      · rintro ⟨hx, hall⟩
        refine ⟨⟨hx, (hall b (Or.inl rfl)).1, (hall b (Or.inl rfl)).2⟩, ?_⟩
        exact fun a ha => hall a (Or.inr ha)

theorem removeListeners_addListeners (sc rz : Bool) (l : List Elem) :
    removeListeners sc rz l (addListeners sc rz l ∅) = ∅ := by
  ext x
  rw [mem_removeListeners, mem_addListeners]
  simp only [Finset.not_mem_empty, false_or, iff_false]
  rintro ⟨⟨a, ha, h⟩, hall⟩
  exact absurd h (by simpa using hall a ha)

/-! The change test, as a proposition. -/

theorem rectChanged_iff (prev : Option Rect) (r : Rect) :
    rectChanged prev r = true ↔
      ∃ p, prev = some p ∧
        (p.x ≠ r.x ∨ p.y ≠ r.y ∨ p.width ≠ r.width ∨ p.height ≠ r.height) := by
  cases prev with
  | none => simp [rectChanged]
  | some p =>
      simp only [rectChanged, Bool.or_eq_true, bne_iff_ne, Option.some.injEq]
      constructor
      · rintro (((h | h) | h) | h)
        · exact ⟨p, rfl, Or.inl (Ne.symm h)⟩
        · exact ⟨p, rfl, Or.inr (Or.inl (Ne.symm h))⟩
        · exact ⟨p, rfl, Or.inr (Or.inr (Or.inl (Ne.symm h)))⟩
        · exact ⟨p, rfl, Or.inr (Or.inr (Or.inr (Ne.symm h)))⟩
      · rintro ⟨q, rfl, (h | h | h | h)⟩
        · exact Or.inl (Or.inl (Or.inl (Ne.symm h)))
        · exact Or.inl (Or.inl (Or.inr (Ne.symm h)))
        · exact Or.inl (Or.inr (Ne.symm h))
        · exact Or.inr (Ne.symm h)

/-! Fields untouched by the various transitions. -/

theorem frameLoop_listeners (cfg : Config) (r : Rect) (s : State) :
    ((frameLoop cfg r s).1).listeners = s.listeners := by
  unfold frameLoop
  cases cfg.reference <;> simp [requestAnimationFrame]

theorem frameLoop_resizeObserver (cfg : Config) (r : Rect) (s : State) :
    ((frameLoop cfg r s).1).resizeObserver = s.resizeObserver := by
  unfold frameLoop
  cases cfg.reference <;> simp [requestAnimationFrame]

theorem step_listeners (cfg : Config) (s : State) (e : Event) :
    ((step cfg s e).1).listeners = s.listeners := by
  cases e with
  | scrollAt a => by_cases h : (a, ListenerKind.scroll) ∈ s.listeners <;> simp [step, h]
  | resizeAt a => by_cases h : (a, ListenerKind.resize) ∈ s.listeners <;> simp [step, h]
  | roFire => cases h : s.resizeObserver <;> simp [step, h]
  | ioFire entry =>
      cases h : s.intersectionObserver with
      | none => simp [step, h]
      | some u =>
          cases entry with
          | none => simp [step, h]
          | some r => simp [step, h, requestAnimationFrame]
  | frame r =>
      cases h : s.pendingFrame with
      | none => simp [step, h]
      | some i => simp [step, h, frameLoop_listeners]

theorem run_listeners (cfg : Config) (s : State) (es : List Event) :
    ((run cfg s es).1).listeners = s.listeners := by
  induction es generalizing s with
  | nil => rfl
  | cons e t ih => simp [run, ih, step_listeners]

theorem step_observed (cfg : Config) (s : State) (e : Event) (l : List Elem)
    (h : ObservedEq l s) : ObservedEq l (step cfg s e).1 := by
  intro ro hro
  cases e with
  | scrollAt a =>
      by_cases hm : (a, ListenerKind.scroll) ∈ s.listeners <;>
        simp [step, hm] at hro <;> exact h ro hro
  | resizeAt a =>
      by_cases hm : (a, ListenerKind.resize) ∈ s.listeners <;>
        simp [step, hm] at hro <;> exact h ro hro
  | roFire =>
      cases hr : s.resizeObserver with
      | none => simp [step, hr] at hro
      | some ro0 =>
          simp [step, hr] at hro
          have := h ro0 hr
          rw [← hro]
          exact this
  | ioFire entry =>
      cases hi : s.intersectionObserver with
      | none => simp [step, hi] at hro; exact h ro hro
      | some u =>
          cases entry with
          | none => simp [step, hi] at hro; exact h ro hro
          | some r =>
              simp [step, hi, requestAnimationFrame] at hro
              exact h ro hro
  | frame r =>
      cases hp : s.pendingFrame with
      | none => simp [step, hp] at hro; exact h ro hro
      | some i =>
          simp only [step, hp] at hro
          rw [frameLoop_resizeObserver] at hro
          exact h ro hro

theorem run_observed (cfg : Config) (s : State) (es : List Event) (l : List Elem)
    (h : ObservedEq l s) : ObservedEq l (run cfg s es).1 := by
  induction es generalizing s with
  | nil => exact h
  | cons e t ih => exact ih (step cfg s e).1 (step_observed cfg s e l h)

/-! The frame-request invariant is established by setup and preserved by
every event. -/

theorem frameLoop_frameInv (cfg : Config) (r : Rect) (s : State) (h : FrameInv s) :
    FrameInv (frameLoop cfg r s).1 := by
  obtain ⟨h1, h2, h3⟩ := h
  unfold frameLoop
  cases cfg.reference with
  | el e => exact ⟨h1, h2, h3⟩
  | virtual c =>
      refine ⟨?_, ?_, ?_⟩
      · intro i hi
        simp only [requestAnimationFrame] at hi ⊢
        simpa using hi
      · intro i hi
        simp only [requestAnimationFrame] at hi
        simp only [Option.some.injEq] at hi
        omega
      · simp [requestAnimationFrame]

theorem step_frameInv (cfg : Config) (s : State) (e : Event) (h : FrameInv s) :
    FrameInv (step cfg s e).1 := by
  obtain ⟨h1, h2, h3⟩ := h
  cases e with
  | scrollAt a =>
      by_cases hm : (a, ListenerKind.scroll) ∈ s.listeners <;>
        simp [step, hm] <;> exact ⟨h1, h2, h3⟩
  | resizeAt a =>
      by_cases hm : (a, ListenerKind.resize) ∈ s.listeners <;>
        simp [step, hm] <;> exact ⟨h1, h2, h3⟩
  | roFire =>
      cases hr : s.resizeObserver with
      | none => simp only [step, hr]; exact ⟨h1, h2, h3⟩
      | some ro0 => simp only [step, hr]; exact ⟨h1, h2, h3⟩
  | ioFire entry =>
      cases hi : s.intersectionObserver with
      | none => simp only [step, hi]; exact ⟨h1, h2, h3⟩
      | some u =>
          cases entry with
          | none => simp only [step, hi]; exact ⟨h1, h2, h3⟩
          | some r =>
              simp only [step, hi, requestAnimationFrame]
              refine ⟨?_, ?_, ?_⟩
              · intro i hi2
                simp at hi2
                simp [hi2]
              · intro i hi2
                simp only [Option.some.injEq] at hi2
                omega
              · simp
  | frame r =>
      cases hp : s.pendingFrame with
      | none => simp only [step, hp]; exact ⟨h1, h2, h3⟩
      | some i =>
          simp only [step, hp]
          refine frameLoop_frameInv cfg r _ ⟨?_, h2, h3⟩
          intro j hj
          simp at hj

theorem run_frameInv (cfg : Config) (s : State) (es : List Event) (h : FrameInv s) :
    FrameInv (run cfg s es).1 := by
  induction es generalizing s with
  | nil => exact h
  | cons e t ih => exact ih (step cfg s e).1 (step_frameInv cfg s e h)

/-! Quiescent states absorb every event without invoking `update`. -/

theorem step_quiescent (cfg : Config) (s : State) (e : Event) (h : Quiescent s) :
    step cfg s e = (s, []) := by
  obtain ⟨h1, h2, h3, h4⟩ := h
  cases e with
  | scrollAt a => simp [step, h1]
  | resizeAt a => simp [step, h1]
  | roFire => simp [step, h2]
  | ioFire entry => simp [step, h3]
  | frame r => simp [step, h4]

theorem run_quiescent (cfg : Config) (s : State) (es : List Event) (h : Quiescent s) :
    run cfg s es = (s, []) := by
  induction es with
  | nil => rfl
  | cons e t ih => simp [run, step_quiescent cfg s e h, ih]

/-! What the disposer produces. -/

theorem cancel_listeners (id : Nat) (s : State) :
    (cancelAnimationFrame id s).listeners = s.listeners := by
  unfold cancelAnimationFrame; split <;> rfl

theorem cancel_resizeObserver (id : Nat) (s : State) :
    (cancelAnimationFrame id s).resizeObserver = s.resizeObserver := by
  unfold cancelAnimationFrame; split <;> rfl

theorem cancel_intersectionObserver (id : Nat) (s : State) :
    (cancelAnimationFrame id s).intersectionObserver = s.intersectionObserver := by
  unfold cancelAnimationFrame; split <;> rfl

theorem cancel_pending (id : Nat) (s : State)
    (h1 : ∀ i, s.pendingFrame = some i → s.frameId = some i)
    (hf : s.frameId = some id) :
    (cancelAnimationFrame id s).pendingFrame = none := by
  unfold cancelAnimationFrame
  split
  · rfl
  · rename_i hne
    cases hp : s.pendingFrame with
    | none => rfl
    | some j =>
        have hj := h1 j hp
        rw [hf] at hj
        cases hj
        exact absurd hp hne

theorem optionalDisconnect_eq {α : Type} (x : Option α) :
    optionalDisconnect x = Except.ok none := by
  cases x <;> rfl

theorem dispose_ok (cfg : Config) (s : State) :
    ∃ s1, dispose cfg s = Except.ok s1 ∧
      s1.listeners =
        removeListeners cfg.ancestorScroll cfg.opts.ancestorResize cfg.ancestors s.listeners ∧
      s1.resizeObserver = none ∧ s1.intersectionObserver = none ∧
      (FrameInv s → s1.pendingFrame = none) := by
  simp only [dispose, optionalDisconnect_eq]
  cases hfi : s.frameId with
  | none =>
      refine ⟨_, rfl, rfl, rfl, rfl, ?_⟩
      rintro ⟨i1, i2, i3⟩
      show s.pendingFrame = none
      cases hp : s.pendingFrame with
      | none => rfl
      | some j => rw [i1 j hp] at hfi; cases hfi
  | some id =>
      by_cases hz : id = 0
      · subst hz
        simp only [ne_eq, not_true_eq_false, if_false]
        refine ⟨_, rfl, rfl, rfl, rfl, ?_⟩
        rintro ⟨i1, i2, i3⟩
        exact absurd (i2 0 hfi) (by omega)
      · simp only [ne_eq, hz, not_false_eq_true, if_true]
        refine ⟨_, rfl, ?_, ?_, ?_, ?_⟩
        · rw [cancel_listeners]
        · rw [cancel_resizeObserver]
        · rw [cancel_intersectionObserver]
        · rintro ⟨i1, i2, i3⟩
          exact cancel_pending id _ (fun i hi => by rw [← hfi]; exact i1 i hi) rfl

theorem dispose_quiescent (cfg : Config) (s : State)
    (hl : s.listeners = addListeners cfg.ancestorScroll cfg.opts.ancestorResize cfg.ancestors ∅)
    (hf : FrameInv s) :
    ∃ s1, dispose cfg s = Except.ok s1 ∧ Quiescent s1 := by
  obtain ⟨s1, hok, hls, hro, hio, hpf⟩ := dispose_ok cfg s
  refine ⟨s1, hok, ?_, hro, hio, hpf hf⟩
  rw [hls, hl, removeListeners_addListeners]

/-! What setup produces. -/

theorem setup_listeners (cfg : Config) (r0 : Rect) :
    ((setup cfg r0).1).listeners =
      addListeners cfg.ancestorScroll cfg.opts.ancestorResize cfg.ancestors ∅ := by
  cases haf : cfg.opts.animationFrame with
  | false => simp [setup, haf]
  | true => simp [setup, haf, frameLoop_listeners]

theorem setup_resizeObserver (cfg : Config) (r0 : Rect) :
    ((setup cfg r0).1).resizeObserver = initResizeObserver cfg := by
  cases haf : cfg.opts.animationFrame with
  | false => simp [setup, haf]
  | true => simp [setup, haf, frameLoop_resizeObserver]

theorem setup_frameInv (cfg : Config) (r0 : Rect) :
    FrameInv (setup cfg r0).1 := by
  have h0 : FrameInv
      { listeners := addListeners cfg.ancestorScroll cfg.opts.ancestorResize cfg.ancestors ∅
        resizeObserver := initResizeObserver cfg
        intersectionObserver := none
        prevRefRect := none
        frameId := none
        pendingFrame := none
        nextFrameId := 1 } := by
    refine ⟨?_, ?_, ?_⟩ <;> simp
  cases haf : cfg.opts.animationFrame with
  | false => simpa [setup, haf] using h0
  | true =>
      have := frameLoop_frameInv cfg r0 _ h0
      simpa [setup, haf] using this

theorem initResizeObserver_observed_af (cfg : Config)
    (haf : cfg.opts.animationFrame = true) :
    ObservedEq [cfg.floating] ⟨∅, initResizeObserver cfg, none, none, none, none, 1⟩ := by
  intro ro hro
  simp only [initResizeObserver] at hro
  by_cases he : cfg.opts.elementResize
  · rw [if_pos he] at hro
    cases href : cfg.reference with
    | el e => simp [href, haf] at hro; rw [← hro]
    | virtual c =>
        cases c with
        | none => simp [href, haf] at hro; rw [← hro]
        | some c0 => simp [href, haf] at hro; rw [← hro]
  · rw [if_neg he] at hro
    cases hro

/-! The claims. -/

/-- C2: for every reference/floating pair and every combination of option
values, `autoUpdate` invokes the `update` callback exactly once before
returning — the unconditional call of line 142; on the virtual
frame-polling path the synchronous first `frameLoop` run never adds a
second call because no previous snapshot exists. -/
theorem setup_exactly_one_update (cfg : Config) (r0 : Rect) :
    updates (setup cfg r0).2 = 1 := by
  cases haf : cfg.opts.animationFrame with
  | false => simp [setup, haf, updates]
  | true =>
      cases href : cfg.reference with
      | el e => simp [setup, haf, frameLoop, href, updates]
      | virtual c => simp [setup, haf, frameLoop, href, updates, rectChanged]

/-- C3: in a poller iteration — the intersection-trigger path
(`Event.ioFire` with a delivered entry) and the virtual direct-read path
(`Event.frame` for a virtual reference) — `update` is invoked iff a
previous snapshot exists and at least one of its x/y/width/height fields
differs from the newly sampled rectangle; in particular a first sample
(`prevRefRect = none`) or an identical rectangle never triggers it. -/
theorem poller_update_iff_rect_changed (cfg : Config) (s : State) (r : Rect) :
    (s.intersectionObserver = some () →
      (Action.update ∈ (step cfg s (Event.ioFire (some r))).2 ↔
        ∃ p, s.prevRefRect = some p ∧
          (p.x ≠ r.x ∨ p.y ≠ r.y ∨ p.width ≠ r.width ∨ p.height ≠ r.height))) ∧
    (∀ c, cfg.reference = ReferenceElement.virtual c →
      ∀ i, s.pendingFrame = some i →
      (Action.update ∈ (step cfg s (Event.frame r)).2 ↔
        ∃ p, s.prevRefRect = some p ∧
          (p.x ≠ r.x ∨ p.y ≠ r.y ∨ p.width ≠ r.width ∨ p.height ≠ r.height))) := by
  constructor
  · intro hio
    rw [← rectChanged_iff]
    simp only [step, hio]
    cases hc : rectChanged s.prevRefRect r <;> simp [hc]
  · intro c href i hp
    rw [← rectChanged_iff]
    simp only [step, hp, frameLoop, href]
    cases hc : rectChanged s.prevRefRect r <;> simp [hc]

/-- C3 witness: with the trigger armed, previous snapshot `rectA` and new
rectangle `rectB` (moved 5px right), the iteration invokes `update`. -/
theorem poller_update_iff_rect_changed_witness :
    Action.update ∈ (step cfgElemAf sPoll (Event.ioFire (some rectB))).2 :=
  ((poller_update_iff_rect_changed cfgElemAf sPoll rectB).1 rfl).mpr
    ⟨rectA, rfl, Or.inl (by decide)⟩

/-- C5: a completed poller iteration always requests the next animation
frame, whatever the previous snapshot was (change detected or not), on both
the intersection-trigger path and the virtual direct-read path: afterwards
the freshly allocated request id is pending and stored in `frameId`. -/
theorem poller_always_reschedules (cfg : Config) (s : State) (r : Rect) :
    (s.intersectionObserver = some () →
      ((step cfg s (Event.ioFire (some r))).1).pendingFrame = some s.nextFrameId ∧
      ((step cfg s (Event.ioFire (some r))).1).frameId = some s.nextFrameId) ∧
    (∀ c, cfg.reference = ReferenceElement.virtual c →
      ∀ i, s.pendingFrame = some i →
      ((step cfg s (Event.frame r)).1).pendingFrame = some s.nextFrameId ∧
      ((step cfg s (Event.frame r)).1).frameId = some s.nextFrameId) := by
  constructor
  · intro hio
    simp [step, hio, requestAnimationFrame]
  · intro c href i hp
    simp [step, hp, frameLoop, href, requestAnimationFrame]

/-- C5 witness: with the trigger armed and an unchanged rectangle (`rectA`
sampled again), the next frame is still requested. -/
theorem poller_always_reschedules_witness :
    ((step cfgElemAf sPoll (Event.ioFire (some rectA))).1).pendingFrame = some 1 ∧
    ((step cfgElemAf sPoll (Event.ioFire (some rectA))).1).frameId = some 1 :=
  (poller_always_reschedules cfgElemAf sPoll rectA).1 rfl

/-- C6 counterexample: the claim says the initial `update` call happens
before the poller first samples the reference rectangle.  For the virtual
reference `cfgVirtAf` the setup trace is `[sample rectA, update]` — the
sample (line 125, run by the `frameLoop()` call on line 94) precedes the
`update()` of line 142 — so "every sample is preceded by an update" fails
at index 0. -/
theorem update_before_first_sample_counterexample :
    ¬ (∀ (j : Nat) (r : Rect),
        ((setup cfgVirtAf rectA).2)[j]? = some (Action.sample r) →
        ∃ i, i < j ∧ ((setup cfgVirtAf rectA).2)[i]? = some Action.update) := by
  intro h
  obtain ⟨i, hi, _⟩ := h 0 rectA (by decide)
  exact absurd hi (Nat.not_lt_zero i)

/-- C6 amended: with frame polling enabled the initial `update` is the last
synchronous action of setup: for a concrete-element reference no rectangle
sample happens during setup at all (the first sample comes later, in the
asynchronous intersection callback, after the initial `update`); for a
virtual reference the first sample precedes the initial `update`, though it
never itself invokes `update` since no previous snapshot exists. -/
theorem af_setup_trace_order (cfg : Config) (r0 : Rect)
    (haf : cfg.opts.animationFrame = true) :
    ((∃ e, cfg.reference = ReferenceElement.el e) →
      (setup cfg r0).2 = [Action.update]) ∧
    ((∃ c, cfg.reference = ReferenceElement.virtual c) →
      (setup cfg r0).2 = [Action.sample r0, Action.update]) := by
  constructor
  · rintro ⟨e, he⟩
    simp [setup, haf, frameLoop, he]
  · rintro ⟨c, hc⟩
    simp [setup, haf, frameLoop, hc, rectChanged]

/-- C6 amended witness: the virtual-reference setup trace, concretely. -/
theorem af_setup_trace_order_witness :
    (setup cfgVirtAf rectA).2 = [Action.sample rectA, Action.update] :=
  (af_setup_trace_order cfgVirtAf rectA (by decide)).2 ⟨none, rfl⟩

/-- C4: when frame polling is on, no scroll listener is ever registered (at
setup or after any event sequence), and the size watcher observes only the
floating element — the `observe(reference)` and `observe(contextElement)`
calls of lines 82-85 are skipped — even with `ancestorScroll` and
`elementResize` at their (true) defaults. -/
theorem animation_frame_supersedes (cfg : Config) (r0 : Rect) (es : List Event)
    (haf : cfg.opts.animationFrame = true) :
    (∀ a, (a, ListenerKind.scroll) ∉ ((run cfg (setup cfg r0).1 es).1).listeners) ∧
    (∀ ro, ((run cfg (setup cfg r0).1 es).1).resizeObserver = some ro →
      ro.observed = [cfg.floating]) := by
  constructor
  · intro a hmem
    rw [run_listeners, setup_listeners, mem_addListeners] at hmem
    rcases hmem with h | ⟨b, hb, ⟨hsc, hx⟩ | ⟨hrz, hx⟩⟩
    · exact absurd h (Finset.not_mem_empty _)
    · have hoff : cfg.ancestorScroll = false := by
        simp [Config.ancestorScroll, haf]
      rw [hoff] at hsc
      cases hsc
    · simp at hx
  · intro ro hro
    have hbase : ObservedEq [cfg.floating] (setup cfg r0).1 := by
      intro ro2 hro2
      rw [setup_resizeObserver] at hro2
      exact initResizeObserver_observed_af cfg haf ro2 hro2
    exact run_observed cfg (setup cfg r0).1 es [cfg.floating] hbase ro hro

/-- C4 witness: under `cfgElemAf` (frame polling on, non-trivial ancestor
accessor) no scroll listener exists on ancestor 1 after setup and a resize
observer firing. -/
theorem animation_frame_supersedes_witness :
    (1, ListenerKind.scroll) ∉
      ((run cfgElemAf (setup cfgElemAf rectA).1 [Event.roFire]).1).listeners :=
  (animation_frame_supersedes cfgElemAf rectA [Event.roFire] (by decide)).1 1

/-- C7: the size watcher keeps one `initialUpdate` flag shared by all
observed nodes: setup leaves it `true`; the first callback firing invokes
nothing and clears it; every later firing invokes `update` once;
consequently with `elementResize` on the watcher's mandatory initial firing
adds no `update` beyond the setup-time call. -/
theorem resize_observer_shared_first_fire (cfg : Config) (r0 : Rect) (s : State)
    (ro : RoState) :
    (cfg.opts.elementResize = true →
      ∃ obs, ((setup cfg r0).1).resizeObserver = some ⟨obs, true⟩) ∧
    (s.resizeObserver = some ro → ro.initialUpdate = true →
      step cfg s Event.roFire =
        ({ s with resizeObserver := some ⟨ro.observed, false⟩ }, [])) ∧
    (s.resizeObserver = some ro → ro.initialUpdate = false →
      step cfg s Event.roFire =
        ({ s with resizeObserver := some ⟨ro.observed, false⟩ }, [Action.update])) ∧
    (cfg.opts.elementResize = true →
      (step cfg (setup cfg r0).1 Event.roFire).2 = []) := by
  have h1 : cfg.opts.elementResize = true →
      ∃ obs, ((setup cfg r0).1).resizeObserver = some ⟨obs, true⟩ := by
    intro he
    rw [setup_resizeObserver]
    unfold initResizeObserver
    rw [if_pos he]
    exact ⟨_, rfl⟩
  refine ⟨h1, ?_, ?_, ?_⟩
  · intro hro hinit
    simp [step, hro, hinit]
  · intro hro hinit
    simp [step, hro, hinit]
  · intro he
    obtain ⟨obs, hobs⟩ := h1 he
    simp [step, hobs]

/-- C7 witness: under default options the first watcher firing after setup
produces no `update`. -/
theorem resize_observer_shared_first_fire_witness :
    (step cfgElem (setup cfgElem rectA).1 Event.roFire).2 = [] :=
  (resize_observer_shared_first_fire cfgElem rectA sPoll ⟨[0], true⟩).2.2.2 (by decide)

/-- C8: for a virtual reference with no `contextElement` under default
options, the ancestor set is exactly the floating element's overflow
ancestors (the reference side contributes nothing) and the size watcher
observes only the floating element. -/
theorem virtual_no_context_floating_only (oa : Elem → List Elem) (fl : Elem) (r0 : Rect) :
    (Config.mk (ReferenceElement.virtual none) fl defaultArgs oa).ancestors = oa fl ∧
    ((setup (Config.mk (ReferenceElement.virtual none) fl defaultArgs oa) r0).1).resizeObserver =
      some ⟨[fl], true⟩ := by
  constructor
  · simp [Config.ancestors, Config.ancestorScroll, Config.opts, resolve, defaultArgs]
  · rw [setup_resizeObserver]
    simp [initResizeObserver, Config.opts, resolve, defaultArgs]

/-- C9: the disposer never throws — for every state, including
partially-initialized ones with absent watcher/trigger/frame handles and
already-disposed ones, `dispose` returns `Except.ok`, and so does a second
call on the result; each optional handle is guarded (`?.`, `if (frameId)`)
before release. -/
theorem disposer_never_throws (cfg : Config) (s : State) :
    ∃ s1, dispose cfg s = Except.ok s1 ∧ ∃ s2, dispose cfg s1 = Except.ok s2 := by
  obtain ⟨s1, h1, -⟩ := dispose_ok cfg s
  obtain ⟨s2, h2, -⟩ := dispose_ok cfg s1
  exact ⟨s1, h1, s2, h2⟩

/-- C10: when the effective ancestor-scroll flag (line 52) and
`ancestorResize` are both false, ancestor discovery never happens: the
ancestor set is `[]` for every possible accessor (so `getOverflowAncestors`
cannot influence the result), no listener exists after setup, and disposal
removes nothing. -/
theorem no_ancestor_work_when_flags_off (cfg : Config) (r0 : Rect) (s : State)
    (hsc : cfg.ancestorScroll = false) (hrz : cfg.opts.ancestorResize = false) :
    cfg.ancestors = [] ∧
    ((setup cfg r0).1).listeners = ∅ ∧
    (∀ g, (Config.mk cfg.reference cfg.floating cfg.options g).ancestors = []) ∧
    (∀ s1, dispose cfg s = Except.ok s1 → s1.listeners = s.listeners) := by
  have hanc : cfg.ancestors = [] := by
    simp [Config.ancestors, hsc, hrz]
  refine ⟨hanc, ?_, ?_, ?_⟩
  · rw [setup_listeners, hanc]
    rfl
  · intro g
    have h1 : (Config.mk cfg.reference cfg.floating cfg.options g).ancestorScroll = false := hsc
    have h2 : (Config.mk cfg.reference cfg.floating cfg.options g).opts.ancestorResize = false :=
      hrz
    simp [Config.ancestors, h1, h2]
  · intro s1 hs1
    obtain ⟨s2, hok, hls, -⟩ := dispose_ok cfg s
    rw [hs1] at hok
    obtain rfl := Except.ok.inj hok
    rw [hls, hanc]
    rfl

/-- C10 witness: frame polling on and `ancestorResize` off, with the
non-trivial accessor `oaSample`: the ancestor set is empty and no listener
is registered. -/
theorem no_ancestor_work_when_flags_off_witness :
    cfgFlagsOff.ancestors = [] ∧ ((setup cfgFlagsOff rectA).1).listeners = ∅ :=
  ⟨(no_ancestor_work_when_flags_off cfgFlagsOff rectA sPoll (by decide) (by decide)).1,
   (no_ancestor_work_when_flags_off cfgFlagsOff rectA sPoll (by decide) (by decide)).2.1⟩

/-- C1: once the disposer has run — from any state reachable by setup plus
an arbitrary event sequence — no subsequent scroll, resize, observer or
frame event can ever invoke `update` again. -/
theorem no_update_after_disposal (cfg : Config) (r0 : Rect) (es0 es : List Event)
    (sd : State)
    (h : dispose cfg ((run cfg (setup cfg r0).1 es0).1) = Except.ok sd) :
    updates (run cfg sd es).2 = 0 := by
  obtain ⟨s1, hok, hq⟩ :=
    dispose_quiescent cfg ((run cfg (setup cfg r0).1 es0).1)
      (by rw [run_listeners, setup_listeners])
      (run_frameInv cfg _ es0 (setup_frameInv cfg r0))
  rw [h] at hok
  obtain rfl := Except.ok.inj hok
  rw [run_quiescent cfg sd es hq]
  rfl

/-- C1 witness: after disposing `cfgElem` (set up, one scroll delivered),
a scroll, a resize, a watcher firing, a trigger firing and a frame event
all leave the update count at zero. -/
theorem no_update_after_disposal_witness :
    updates (run cfgElem sDisposed
      [Event.scrollAt 1, Event.resizeAt 3, Event.roFire,
        Event.ioFire (some rectB), Event.frame rectB]).2 = 0 :=
  no_update_after_disposal cfgElem rectA [Event.scrollAt 1]
    [Event.scrollAt 1, Event.resizeAt 3, Event.roFire,
      Event.ioFire (some rectB), Event.frame rectB]
    sDisposed (by rfl)

end AutoUpdate
